import Mathlib

/-!
Shallow embedding of src/intro/MessageReplaySubscriber.c.

The program is a queue subscriber handling broker-initiated message replay.
The embedding models, faithfully to the C source:
  - the shared error record written by the flow event callback
    (flowEventCallback, lines 65-79);
  - the flow message receive callback (flowMessageReceiveCallback,
    lines 86-104) with the message counter and acknowledgment call;
  - the main consumption loop (main, lines 290-343) as a step function on
    an explicit state, driven by a schedule of asynchronous deliveries and
    bind return codes supplied by the environment;
  - the exit paths of main (argument check line 140, capability check
    line 217, initial bind line 276, fatal rebind lines 306 and 333,
    cleanup lines 345-360).

Constants from the transport header solClient.h (not part of this
repository) are modelled as fixed values; the development relies only on
their pairwise distinctness and on SOLCLIENT_SUBCODE_OK being the zero
value tested by the if on line 291.
-/

namespace MessageReplay

/-- Transport return code SOLCLIENT_OK (solClient.h, external header). -/
def SOLCLIENT_OK : Int := 0

/-- Sub-condition code for a replay-started down-error event
(solClient.h, external header; only distinctness from 0 and from the
other sub-condition is used). -/
def SOLCLIENT_SUBCODE_REPLAY_STARTED : Nat := 147

/-- Sub-condition code for a replay-start-time-not-available down-error
event (solClient.h, external header). -/
def SOLCLIENT_SUBCODE_REPLAY_START_TIME_NOT_AVAILABLE : Nat := 148

/-- Flow property value string for enabling a boolean property
(solClient.h, external header). -/
def SOLCLIENT_PROP_ENABLE_VAL : String := "1"

/-- Flow property value string selecting the queue bind entity
(solClient.h, external header). -/
def SOLCLIENT_FLOW_PROP_BIND_ENTITY_QUEUE : String := "2"

/-- Flow property value string for client acknowledgment mode
(solClient.h, external header). -/
def SOLCLIENT_FLOW_PROP_ACKMODE_CLIENT : String := "SOLCLIENT_FLOW_PROP_ACKMODE_CLIENT"

/-- Flow property value string requesting replay from the beginning of
the replay log (solClient.h, external header). -/
def SOLCLIENT_FLOW_PROP_REPLAY_START_LOCATION_BEGINNING : String := "BEGINNING"

/-- The solClient_errorInfo_t record: response code, sub-condition code
and reason text. The shared Binding Error State (flowErrorInfo, line 267)
and the transport last-error record returned by solClient_getLastErrorInfo
both have this shape. -/
structure ErrorInfo where
  responseCode : Nat
  subCode : Nat
  errorStr : String
deriving DecidableEq, Repr

/-- The no-error value: the initializer on line 267 and the value written
by the clearing statements on lines 294-296 and 324-326. -/
def clearedErrorInfo : ErrorInfo := { responseCode := 0, subCode := 0, errorStr := "" }

/-- Flow event kinds delivered to flowEventCallback (the callback itself
never inspects the kind except to print it). -/
inductive FlowEvent where
  | upNotice
  | downError
  | sessionDown
  | active
  | inactive
deriving DecidableEq, Repr

/-- The state touched by flowEventCallback: the shared Binding Error
State record (user_p, the address of flowErrorInfo in main) and the
transport last-error record (solClient_getLastErrorInfo). -/
structure FlowCallbackState where
  flowErrorInfo : ErrorInfo
  lastErrorInfo : ErrorInfo
deriving DecidableEq, Repr

/-- flowEventCallback, lines 65-79. For every event it copies
responseCode and subCode from the transport last-error record into the
shared record (lines 72-73). Line 74 is the statement
strncpy(errorInfo_p->errorStr, flowErrorInfo_p->errorStr, ...): its
destination is the TRANSPORT record and its source is the shared record,
so the shared errorStr is left unchanged and the transport errorStr is
overwritten with it. The event kind is only printed, never branched on. -/
def flowEventCallback (_ev : FlowEvent) (st : FlowCallbackState) : FlowCallbackState :=
  { flowErrorInfo :=
      { responseCode := st.lastErrorInfo.responseCode
      , subCode := st.lastErrorInfo.subCode
      , errorStr := st.flowErrorInfo.errorStr }
  , lastErrorInfo := { st.lastErrorInfo with errorStr := st.flowErrorInfo.errorStr } }

/-- A delivered message, reduced to the outcome of
solClient_msg_getMsgId on it: some id when extraction succeeds. -/
structure Msg where
  msgIdResult : Option Nat
deriving DecidableEq, Repr

/-- flowMessageReceiveCallback, lines 86-104: increments msgCount
(line 95), then acknowledges via solClient_flow_sendAck if and only if
solClient_msg_getMsgId returned SOLCLIENT_OK (lines 98-101). Returns the
new counter and the list of message ids acknowledged during the call. -/
def flowMessageReceiveCallback (msg : Msg) (msgCount : Nat) : Nat × List Nat :=
  let c := msgCount + 1
  match msg.msgIdResult with
  | some msgId => (c, [msgId])
  | none => (c, [])

/-- The flow properties configured on lines 241-254: the five key/value
pairs written into flowProps, keyed by field name. The replay start
location value slot (flowProps[propIndex], line 254) is the one slot
main later overwrites (line 328). -/
structure FlowProps where
  bindBlocking : String
  bindEntityId : String
  ackMode : String
  bindName : String
  replayStartLocation : String
deriving DecidableEq, Repr

/-- The initial flow properties of main, lines 241-254, for queue name
argv[5]. -/
def initFlowProps (queue : String) : FlowProps :=
  { bindBlocking := SOLCLIENT_PROP_ENABLE_VAL
  , bindEntityId := SOLCLIENT_FLOW_PROP_BIND_ENTITY_QUEUE
  , ackMode := SOLCLIENT_FLOW_PROP_ACKMODE_CLIENT
  , bindName := queue
  , replayStartLocation := SOLCLIENT_FLOW_PROP_REPLAY_START_LOCATION_BEGINNING }

/-- Observable transport actions performed by one iteration of the
consumption loop (lines 290-343). -/
inductive Action where
  | clearError
  | overwriteReplayStart
  | destroyFlow
  | bindFlow (props : FlowProps)
  | sleepPoll
deriving DecidableEq, Repr

/-- True for the destroy and bind actions of a rebind cycle. -/
def isDestroyOrBind : Action → Bool
  | Action.destroyFlow => true
  | Action.bindFlow _ => true
  | _ => false

/-- True for the clearing, destroy and bind actions. -/
def isErrorHandlingStep : Action → Bool
  | Action.clearError => true
  | Action.destroyFlow => true
  | Action.bindFlow _ => true
  | _ => false

/-- True for the replay-start overwrite, destroy and bind actions. -/
def isOverwriteDestroyBind : Action → Bool
  | Action.overwriteReplayStart => true
  | Action.destroyFlow => true
  | Action.bindFlow _ => true
  | _ => false

/-- State of main while the consumption loop runs: the message counter,
the shared Binding Error State, the flowProps array (with the properties
last passed to solClient_session_createFlow tracked separately), whether
a flow handle is live, and counters of successful bind calls and destroy
calls. -/
structure LoopState where
  msgCount : Nat
  flowErrorInfo : ErrorInfo
  flowProps : FlowProps
  lastBindProps : FlowProps
  flowLive : Bool
  binds : Nat
  destroys : Nat
deriving DecidableEq, Repr

/-- Outcome of one loop iteration: continue with a new state, or return
-1 from main (lines 310 and 337). -/
inductive IterResult where
  | next (s : LoopState)
  | fatal (s : LoopState)
deriving DecidableEq, Repr

/-- The state carried by an iteration outcome. -/
def IterResult.state : IterResult → LoopState
  | IterResult.next s => s
  | IterResult.fatal s => s

/-- One iteration of the while body, lines 290-343, given the return
code the next solClient_session_createFlow call would produce. Mirrors
the source: test subCode != 0 (line 291); on REPLAY_STARTED clear the
record (294-296), destroy (302), recreate with the unchanged flowProps
(303) and return -1 on failure (310); on REPLAY_START_TIME_NOT_AVAILABLE
clear (324-326), overwrite the replay start slot (328), destroy (329),
recreate (330) and return -1 on failure (337); otherwise fall through;
SLEEP(1) (line 342) runs on every path that stays in the loop. -/
def loopIter (s : LoopState) (rc : Int) : List Action × IterResult :=
  if s.flowErrorInfo.subCode ≠ 0 then
    if s.flowErrorInfo.subCode = SOLCLIENT_SUBCODE_REPLAY_STARTED then
      let s1 : LoopState := { s with flowErrorInfo := clearedErrorInfo }
      let s2 : LoopState := { s1 with flowLive := false, destroys := s1.destroys + 1 }
      let s3 : LoopState := { s2 with lastBindProps := s2.flowProps }
      if rc = SOLCLIENT_OK then
        ([Action.clearError, Action.destroyFlow, Action.bindFlow s2.flowProps,
          Action.sleepPoll],
         IterResult.next { s3 with flowLive := true, binds := s3.binds + 1 })
      else
        ([Action.clearError, Action.destroyFlow, Action.bindFlow s2.flowProps],
         IterResult.fatal s3)
    else if s.flowErrorInfo.subCode = SOLCLIENT_SUBCODE_REPLAY_START_TIME_NOT_AVAILABLE then
      let s1 : LoopState := { s with flowErrorInfo := clearedErrorInfo }
      let s2 : LoopState := { s1 with flowProps :=
        { s1.flowProps with replayStartLocation :=
            SOLCLIENT_FLOW_PROP_REPLAY_START_LOCATION_BEGINNING } }
      let s3 : LoopState := { s2 with flowLive := false, destroys := s2.destroys + 1 }
      let s4 : LoopState := { s3 with lastBindProps := s3.flowProps }
      if rc = SOLCLIENT_OK then
        ([Action.clearError, Action.overwriteReplayStart, Action.destroyFlow,
          Action.bindFlow s3.flowProps, Action.sleepPoll],
         IterResult.next { s4 with flowLive := true, binds := s4.binds + 1 })
      else
        ([Action.clearError, Action.overwriteReplayStart, Action.destroyFlow,
          Action.bindFlow s3.flowProps],
         IterResult.fatal s4)
    else
      ([Action.sleepPoll], IterResult.next s)
  else
    ([Action.sleepPoll], IterResult.next s)

/-- One asynchronous flow event delivery: the event kind together with
the content of the transport last-error record at delivery time. -/
structure FlowEventDelivery where
  event : FlowEvent
  lastError : ErrorInfo
deriving DecidableEq, Repr

/-- A batch of asynchronous callback activity delivered by the context
thread while the main thread is inside SLEEP: messages to
flowMessageReceiveCallback and flow events to flowEventCallback. -/
structure AsyncBatch where
  msgs : List Msg
  events : List FlowEventDelivery
deriving DecidableEq, Repr

/-- Fold the message receive callback over a batch of messages. -/
def deliverMsgs (msgs : List Msg) (c : Nat) : Nat :=
  msgs.foldl (fun acc m => (flowMessageReceiveCallback m acc).1) c

/-- Fold the flow event callback over a batch of event deliveries,
returning the final shared Binding Error State. -/
def deliverEvents (evs : List FlowEventDelivery) (fe : ErrorInfo) : ErrorInfo :=
  evs.foldl
    (fun cur d =>
      (flowEventCallback d.event { flowErrorInfo := cur, lastErrorInfo := d.lastError }).flowErrorInfo)
    fe

/-- Apply a batch of asynchronous deliveries to the loop state. -/
def applyBatch (b : AsyncBatch) (s : LoopState) : LoopState :=
  { s with
    msgCount := deliverMsgs b.msgs s.msgCount
  , flowErrorInfo := deliverEvents b.events s.flowErrorInfo }

/-- One entry of the environment schedule: the asynchronous activity
arriving before the next loop-condition check, and the return code a
createFlow call during the following iteration would produce. -/
structure SchedEntry where
  batch : AsyncBatch
  rc : Int
deriving DecidableEq, Repr

/-- Outcome of running the consumption loop against a finite schedule:
normal exit (msgCount reached 10, line 290), fatal exit (a rebind
returned non-success), or still running when the schedule ran out. -/
inductive RunResult where
  | normalExit (s : LoopState)
  | fatalExit (s : LoopState)
  | running (s : LoopState)
deriving DecidableEq, Repr

/-- The state carried by a run outcome. -/
def RunResult.state : RunResult → LoopState
  | RunResult.normalExit s => s
  | RunResult.fatalExit s => s
  | RunResult.running s => s

/-- The while loop of main, lines 290-343, driven by a finite schedule
of environment entries. Each step first applies the asynchronous
deliveries, then checks msgCount < 10, then runs the iteration body. -/
def runLoop (s : LoopState) : List SchedEntry → RunResult
  | [] => if s.msgCount < 10 then RunResult.running s else RunResult.normalExit s
  | e :: rest =>
    let s1 := applyBatch e.batch s
    if s1.msgCount < 10 then
      match loopIter s1 e.rc with
      | (_, IterResult.next s2) => runLoop s2 rest
      | (_, IterResult.fatal s2) => RunResult.fatalExit s2
    else
      RunResult.normalExit s1

/-- The loop state at loop entry, after the successful initial bind on
line 272: counter zero (line 35), error record cleared (line 267), one
successful bind, no destroy yet, flow live. -/
def initLoopState (props : FlowProps) : LoopState :=
  { msgCount := 0
  , flowErrorInfo := clearedErrorInfo
  , flowProps := props
  , lastBindProps := props
  , flowLive := true
  , binds := 1
  , destroys := 0 }

/-- The cleanup block of main, lines 345-360: the final
solClient_flow_destroy on line 352. -/
def mainCleanup (s : LoopState) : LoopState :=
  { s with flowLive := false, destroys := s.destroys + 1 }

/-- Map a loop outcome to the exit code and final state of main: normal
exit runs the cleanup destroy and returns 0 (line 360); a fatal rebind
returns -1 at once (lines 310, 337); an exhausted schedule means the
process is still inside the loop. -/
def finishMain : RunResult → Option (Int × LoopState)
  | RunResult.normalExit s => some (0, mainCleanup s)
  | RunResult.fatalExit s => some (-1, s)
  | RunResult.running _ => none

/-- main, lines 111-361, reduced to its exit code: usage check
argc < 6 (line 140), endpoint-management capability check (line 217),
initial createFlow result (line 276), then the consumption loop and
cleanup. argv is the full argument vector including the program name. -/
def mainRun (argv : List String) (capable : Bool) (rc0 : Int)
    (sched : List SchedEntry) : Option Int :=
  if argv.length < 6 then some (-1)
  else if capable = false then some (-1)
  else if rc0 = SOLCLIENT_OK then
    (finishMain (runLoop (initLoopState (initFlowProps (argv.getD 5 ""))) sched)).map Prod.fst
  else some (-1)

/-! ### Helper lemmas -/

/-- Applying an asynchronous batch never touches the flow properties. -/
theorem applyBatch_flowProps (b : AsyncBatch) (s : LoopState) :
    (applyBatch b s).flowProps = s.flowProps := rfl

/-- Applying an asynchronous batch never touches the recorded last bind
properties. -/
theorem applyBatch_lastBindProps (b : AsyncBatch) (s : LoopState) :
    (applyBatch b s).lastBindProps = s.lastBindProps := rfl

/-- Applying an asynchronous batch never touches the flow liveness flag
or the bind and destroy counters. -/
theorem applyBatch_flow_fields (b : AsyncBatch) (s : LoopState) :
    (applyBatch b s).flowLive = s.flowLive ∧ (applyBatch b s).binds = s.binds ∧
    (applyBatch b s).destroys = s.destroys := ⟨rfl, rfl, rfl⟩

/-- Evaluation lemma: an iteration that sees no pending sub-condition
only sleeps. -/
theorem loopIter_eq_noErr (s : LoopState) (rc : Int)
    (h : s.flowErrorInfo.subCode = 0) :
    loopIter s rc = ([Action.sleepPoll], IterResult.next s) := by
  unfold loopIter
  rw [if_neg (by simp [h])]

/-- Evaluation lemma: an iteration that sees a pending sub-condition
other than the two replay sub-conditions only sleeps. -/
theorem loopIter_eq_other (s : LoopState) (rc : Int)
    (h0 : s.flowErrorInfo.subCode ≠ 0)
    (h1 : s.flowErrorInfo.subCode ≠ SOLCLIENT_SUBCODE_REPLAY_STARTED)
    (h2 : s.flowErrorInfo.subCode ≠ SOLCLIENT_SUBCODE_REPLAY_START_TIME_NOT_AVAILABLE) :
    loopIter s rc = ([Action.sleepPoll], IterResult.next s) := by
  unfold loopIter
  rw [if_pos h0, if_neg h1, if_neg h2]

/-- Evaluation lemma: the replay-started branch with a successful
recreate. -/
theorem loopIter_eq_replayStarted_ok (s : LoopState) (rc : Int)
    (hsub : s.flowErrorInfo.subCode = SOLCLIENT_SUBCODE_REPLAY_STARTED)
    (hrc : rc = SOLCLIENT_OK) :
    loopIter s rc =
      ([Action.clearError, Action.destroyFlow, Action.bindFlow s.flowProps,
        Action.sleepPoll],
       IterResult.next
        { msgCount := s.msgCount, flowErrorInfo := clearedErrorInfo
        , flowProps := s.flowProps, lastBindProps := s.flowProps
        , flowLive := true, binds := s.binds + 1, destroys := s.destroys + 1 }) := by
  unfold loopIter
  rw [if_pos (by rw [hsub]; decide), if_pos hsub, if_pos hrc]

/-- Evaluation lemma: the replay-started branch with a failed
recreate. -/
theorem loopIter_eq_replayStarted_fail (s : LoopState) (rc : Int)
    (hsub : s.flowErrorInfo.subCode = SOLCLIENT_SUBCODE_REPLAY_STARTED)
    (hrc : rc ≠ SOLCLIENT_OK) :
    loopIter s rc =
      ([Action.clearError, Action.destroyFlow, Action.bindFlow s.flowProps],
       IterResult.fatal
        { msgCount := s.msgCount, flowErrorInfo := clearedErrorInfo
        , flowProps := s.flowProps, lastBindProps := s.flowProps
        , flowLive := false, binds := s.binds, destroys := s.destroys + 1 }) := by
  unfold loopIter
  rw [if_pos (by rw [hsub]; decide), if_pos hsub, if_neg hrc]

/-- Evaluation lemma: the replay-window-exceeded branch with a
successful recreate. The bound properties carry the overwritten replay
start location. -/
theorem loopIter_eq_window_ok (s : LoopState) (rc : Int)
    (hsub : s.flowErrorInfo.subCode = SOLCLIENT_SUBCODE_REPLAY_START_TIME_NOT_AVAILABLE)
    (hrc : rc = SOLCLIENT_OK) :
    loopIter s rc =
      ([Action.clearError, Action.overwriteReplayStart, Action.destroyFlow,
        Action.bindFlow { s.flowProps with replayStartLocation :=
            SOLCLIENT_FLOW_PROP_REPLAY_START_LOCATION_BEGINNING },
        Action.sleepPoll],
       IterResult.next
        { msgCount := s.msgCount, flowErrorInfo := clearedErrorInfo
        , flowProps := { s.flowProps with replayStartLocation :=
            SOLCLIENT_FLOW_PROP_REPLAY_START_LOCATION_BEGINNING }
        , lastBindProps := { s.flowProps with replayStartLocation :=
            SOLCLIENT_FLOW_PROP_REPLAY_START_LOCATION_BEGINNING }
        , flowLive := true, binds := s.binds + 1, destroys := s.destroys + 1 }) := by
  unfold loopIter
  rw [if_pos (by rw [hsub]; decide), if_neg (by rw [hsub]; decide), if_pos hsub,
    if_pos hrc]

/-- Evaluation lemma: the replay-window-exceeded branch with a failed
recreate. -/
theorem loopIter_eq_window_fail (s : LoopState) (rc : Int)
    (hsub : s.flowErrorInfo.subCode = SOLCLIENT_SUBCODE_REPLAY_START_TIME_NOT_AVAILABLE)
    (hrc : rc ≠ SOLCLIENT_OK) :
    loopIter s rc =
      ([Action.clearError, Action.overwriteReplayStart, Action.destroyFlow,
        Action.bindFlow { s.flowProps with replayStartLocation :=
            SOLCLIENT_FLOW_PROP_REPLAY_START_LOCATION_BEGINNING }],
       IterResult.fatal
        { msgCount := s.msgCount, flowErrorInfo := clearedErrorInfo
        , flowProps := { s.flowProps with replayStartLocation :=
            SOLCLIENT_FLOW_PROP_REPLAY_START_LOCATION_BEGINNING }
        , lastBindProps := { s.flowProps with replayStartLocation :=
            SOLCLIENT_FLOW_PROP_REPLAY_START_LOCATION_BEGINNING }
        , flowLive := false, binds := s.binds, destroys := s.destroys + 1 }) := by
  unfold loopIter
  rw [if_pos (by rw [hsub]; decide), if_neg (by rw [hsub]; decide), if_pos hsub,
    if_neg hrc]

/-- Every loop iteration falls under one of the six evaluation lemmas;
this lemma packages the case split on the pending sub-condition and the
bind return code. -/
theorem loopIter_cases (s : LoopState) (rc : Int) :
    (s.flowErrorInfo.subCode = 0
      ∨ (s.flowErrorInfo.subCode ≠ 0
          ∧ s.flowErrorInfo.subCode ≠ SOLCLIENT_SUBCODE_REPLAY_STARTED
          ∧ s.flowErrorInfo.subCode ≠ SOLCLIENT_SUBCODE_REPLAY_START_TIME_NOT_AVAILABLE))
    ∨ (s.flowErrorInfo.subCode = SOLCLIENT_SUBCODE_REPLAY_STARTED
        ∧ (rc = SOLCLIENT_OK ∨ rc ≠ SOLCLIENT_OK))
    ∨ (s.flowErrorInfo.subCode = SOLCLIENT_SUBCODE_REPLAY_START_TIME_NOT_AVAILABLE
        ∧ (rc = SOLCLIENT_OK ∨ rc ≠ SOLCLIENT_OK)) := by
  by_cases h1 : s.flowErrorInfo.subCode = SOLCLIENT_SUBCODE_REPLAY_STARTED
  · exact Or.inr (Or.inl ⟨h1, em _⟩)
  by_cases h2 : s.flowErrorInfo.subCode = SOLCLIENT_SUBCODE_REPLAY_START_TIME_NOT_AVAILABLE
  · exact Or.inr (Or.inr ⟨h2, em _⟩)
  by_cases h0 : s.flowErrorInfo.subCode = 0
  · exact Or.inl (Or.inl h0)
  · exact Or.inl (Or.inr ⟨h0, h1, h2⟩)

/-- A loop iteration preserves a replay start location already set to
the beginning of the log: the only assignment to that slot writes that
very value. -/
theorem loopIter_preserves_beginning (s : LoopState) (rc : Int)
    (h : s.flowProps.replayStartLocation
        = SOLCLIENT_FLOW_PROP_REPLAY_START_LOCATION_BEGINNING) :
    ((loopIter s rc).2.state).flowProps.replayStartLocation
        = SOLCLIENT_FLOW_PROP_REPLAY_START_LOCATION_BEGINNING := by
  rcases loopIter_cases s rc with (h0 | ⟨h0, h1, h2⟩) | ⟨hsub, hrc⟩ | ⟨hsub, hrc⟩
  · rw [loopIter_eq_noErr s rc h0]; exact h
  · rw [loopIter_eq_other s rc h0 h1 h2]; exact h
  · rcases hrc with hrc | hrc
    · rw [loopIter_eq_replayStarted_ok s rc hsub hrc]; exact h
    · rw [loopIter_eq_replayStarted_fail s rc hsub hrc]; exact h
  · rcases hrc with hrc | hrc
    · rw [loopIter_eq_window_ok s rc hsub hrc]
      rfl
    · rw [loopIter_eq_window_fail s rc hsub hrc]
      rfl

/-- The whole loop preserves a replay start location already set to the
beginning of the log, whatever the schedule. -/
theorem runLoop_preserves_beginning (sched : List SchedEntry) :
    ∀ t : LoopState,
    t.flowProps.replayStartLocation = SOLCLIENT_FLOW_PROP_REPLAY_START_LOCATION_BEGINNING →
    ((runLoop t sched).state).flowProps.replayStartLocation
        = SOLCLIENT_FLOW_PROP_REPLAY_START_LOCATION_BEGINNING := by
  induction sched with
  | nil =>
    intro t ht
    by_cases h : t.msgCount < 10 <;> simp [runLoop, h, RunResult.state, ht]
  | cons e rest ih =>
    intro t ht
    have hb : (applyBatch e.batch t).flowProps.replayStartLocation
        = SOLCLIENT_FLOW_PROP_REPLAY_START_LOCATION_BEGINNING := by
      rw [applyBatch_flowProps]; exact ht
    by_cases h : (applyBatch e.batch t).msgCount < 10
    · have hpres := loopIter_preserves_beginning (applyBatch e.batch t) e.rc hb
      rcases hli : loopIter (applyBatch e.batch t) e.rc with ⟨tr, r⟩
      rw [hli] at hpres
      cases r with
      | next s2 =>
        simp only [runLoop, h, if_true, hli]
        exact ih s2 hpres
      | fatal s2 =>
        simp only [runLoop, h, if_true, hli]
        exact hpres
    · simp only [runLoop, h, if_false, RunResult.state]
      exact hb

/-- A loop iteration preserves the invariant that the current flow
properties are exactly the properties used by the most recent bind
call. -/
theorem loopIter_lastBindProps_inv (s : LoopState) (rc : Int)
    (h : s.lastBindProps = s.flowProps) :
    ((loopIter s rc).2.state).lastBindProps = ((loopIter s rc).2.state).flowProps := by
  rcases loopIter_cases s rc with (h0 | ⟨h0, h1, h2⟩) | ⟨hsub, hrc⟩ | ⟨hsub, hrc⟩
  · rw [loopIter_eq_noErr s rc h0]; exact h
  · rw [loopIter_eq_other s rc h0 h1 h2]; exact h
  · rcases hrc with hrc | hrc
    · rw [loopIter_eq_replayStarted_ok s rc hsub hrc]
      rfl
    · rw [loopIter_eq_replayStarted_fail s rc hsub hrc]
      rfl
  · rcases hrc with hrc | hrc
    · rw [loopIter_eq_window_ok s rc hsub hrc]
      rfl
    · rw [loopIter_eq_window_fail s rc hsub hrc]
      rfl

/-- A loop iteration started with a live flow and one more successful
bind than destroys either continues in that shape, or exits fatally with
the flow dead and every successful bind matched by a destroy. -/
theorem loopIter_inv (s : LoopState) (rc : Int)
    (hlive : s.flowLive = true) (hb : s.binds = s.destroys + 1) :
    (∀ t, (loopIter s rc).2 = IterResult.next t →
        t.flowLive = true ∧ t.binds = t.destroys + 1)
    ∧ (∀ t, (loopIter s rc).2 = IterResult.fatal t →
        t.flowLive = false ∧ t.binds = t.destroys ∧ 1 ≤ t.destroys) := by
  rcases loopIter_cases s rc with (h0 | ⟨h0, h1, h2⟩) | ⟨hsub, hrc⟩ | ⟨hsub, hrc⟩
  · rw [loopIter_eq_noErr s rc h0]
    constructor
    · intro t ht
      cases ht
      exact ⟨hlive, hb⟩
    · intro t ht
      exact absurd ht (by simp)
  · rw [loopIter_eq_other s rc h0 h1 h2]
    constructor
    · intro t ht
      cases ht
      exact ⟨hlive, hb⟩
    · intro t ht
      exact absurd ht (by simp)
  · rcases hrc with hrc | hrc
    · rw [loopIter_eq_replayStarted_ok s rc hsub hrc]
      constructor
      · intro t ht
        cases ht
        refine ⟨rfl, ?_⟩
        show s.binds + 1 = s.destroys + 1 + 1
        rw [hb]
      · intro t ht
        exact absurd ht (by simp)
    · rw [loopIter_eq_replayStarted_fail s rc hsub hrc]
      constructor
      · intro t ht
        exact absurd ht (by simp)
      · intro t ht
        cases ht
        exact ⟨rfl, hb, Nat.succ_le_succ (Nat.zero_le _)⟩
  · rcases hrc with hrc | hrc
    · rw [loopIter_eq_window_ok s rc hsub hrc]
      constructor
      · intro t ht
        cases ht
        refine ⟨rfl, ?_⟩
        show s.binds + 1 = s.destroys + 1 + 1
        rw [hb]
      · intro t ht
        exact absurd ht (by simp)
    · rw [loopIter_eq_window_fail s rc hsub hrc]
      constructor
      · intro t ht
        exact absurd ht (by simp)
      · intro t ht
        cases ht
        exact ⟨rfl, hb, Nat.succ_le_succ (Nat.zero_le _)⟩

/-- Loop-level version of the liveness and counter invariant. -/
theorem runLoop_inv (sched : List SchedEntry) :
    ∀ s : LoopState, s.flowLive = true → s.binds = s.destroys + 1 →
    (∀ t, runLoop s sched = RunResult.normalExit t →
        t.flowLive = true ∧ t.binds = t.destroys + 1)
    ∧ (∀ t, runLoop s sched = RunResult.fatalExit t →
        t.flowLive = false ∧ t.binds = t.destroys ∧ 1 ≤ t.destroys) := by
  induction sched with
  | nil =>
    intro s hlive hb
    constructor <;> intro t ht <;> unfold runLoop at ht
    · by_cases hc : s.msgCount < 10
      · rw [if_pos hc] at ht
        exact absurd ht (by simp)
      · rw [if_neg hc] at ht
        cases ht
        exact ⟨hlive, hb⟩
    · by_cases hc : s.msgCount < 10
      · rw [if_pos hc] at ht
        exact absurd ht (by simp)
      · rw [if_neg hc] at ht
        exact absurd ht (by simp)
  | cons e rest ih =>
    intro s hlive hb
    have hfields := applyBatch_flow_fields e.batch s
    have hlive1 : (applyBatch e.batch s).flowLive = true := by
      rw [hfields.1]; exact hlive
    have hb1 : (applyBatch e.batch s).binds = (applyBatch e.batch s).destroys + 1 := by
      rw [hfields.2.1, hfields.2.2]; exact hb
    have hiter := loopIter_inv (applyBatch e.batch s) e.rc hlive1 hb1
    by_cases h : (applyBatch e.batch s).msgCount < 10
    · rcases hli : loopIter (applyBatch e.batch s) e.rc with ⟨tr, r⟩
      cases r with
      | next s2 =>
        have hs2 := hiter.1 s2 (by rw [hli])
        constructor <;> intro t ht <;>
          simp only [runLoop, h, if_true, hli] at ht
        · exact (ih s2 hs2.1 hs2.2).1 t ht
        · exact (ih s2 hs2.1 hs2.2).2 t ht
      | fatal s2 =>
        have hs2 := hiter.2 s2 (by rw [hli])
        constructor <;> intro t ht <;>
          simp only [runLoop, h, if_true, hli] at ht
        · exact absurd ht (by simp)
        · cases ht
          exact hs2
    · constructor <;> intro t ht <;>
        simp only [runLoop, h, if_false] at ht
      · cases ht
        exact ⟨hlive1, hb1⟩
      · exact absurd ht (by simp)

/-- A normal loop exit can only happen once the message counter has
reached the threshold of 10. -/
theorem runLoop_normalExit_msgCount (sched : List SchedEntry) :
    ∀ s t : LoopState, runLoop s sched = RunResult.normalExit t → 10 ≤ t.msgCount := by
  induction sched with
  | nil =>
    intro s t h
    unfold runLoop at h
    by_cases hc : s.msgCount < 10
    · rw [if_pos hc] at h
      exact absurd h (by simp)
    · rw [if_neg hc] at h
      cases h
      omega
  | cons e rest ih =>
    intro s t h
    by_cases hc : (applyBatch e.batch s).msgCount < 10
    · rcases hli : loopIter (applyBatch e.batch s) e.rc with ⟨tr, r⟩
      cases r with
      | next s2 =>
        simp only [runLoop, hc, if_true, hli] at h
        exact ih s2 t h
      | fatal s2 =>
        simp only [runLoop, hc, if_true, hli] at h
        exact absurd h (by simp)
    · simp only [runLoop, hc, if_false] at h
      cases h
      omega

/-! ### Claim theorems -/

/-- Claim C1: on every iteration of the consumption loop that observes
the replay-started sub-condition in the Binding Error State, the loop
performs exactly one destroy followed by one recreate of the flow, and
the configuration passed to the recreate is identical to the
configuration used by the previous bind; the configuration is left
unchanged. -/
theorem replayStarted_one_rebind_same_config (s : LoopState) (rc : Int)
    (hsub : s.flowErrorInfo.subCode = SOLCLIENT_SUBCODE_REPLAY_STARTED)
    (hprev : s.lastBindProps = s.flowProps) :
    (loopIter s rc).1.filter isDestroyOrBind
      = [Action.destroyFlow, Action.bindFlow s.lastBindProps]
    ∧ ((loopIter s rc).2.state).flowProps = s.flowProps := by
  by_cases hrc : rc = SOLCLIENT_OK
  · rw [loopIter_eq_replayStarted_ok s rc hsub hrc, hprev]
    exact ⟨rfl, rfl⟩
  · rw [loopIter_eq_replayStarted_fail s rc hsub hrc, hprev]
    exact ⟨rfl, rfl⟩

/-- Concrete loop state observing a replay-started sub-condition. -/
def replayStartedState : LoopState :=
  { msgCount := 3
  , flowErrorInfo :=
      { responseCode := 200, subCode := SOLCLIENT_SUBCODE_REPLAY_STARTED
      , errorStr := "replay" }
  , flowProps := initFlowProps "q"
  , lastBindProps := initFlowProps "q"
  , flowLive := true, binds := 1, destroys := 0 }

/-- Witness for claim C1 at a concrete state. -/
theorem replayStarted_one_rebind_same_config_witness :
    (loopIter replayStartedState 0).1.filter isDestroyOrBind
      = [Action.destroyFlow, Action.bindFlow replayStartedState.lastBindProps]
    ∧ ((loopIter replayStartedState 0).2.state).flowProps
        = replayStartedState.flowProps :=
  replayStarted_one_rebind_same_config replayStartedState 0 rfl rfl

/-- Claim C2: on every iteration that observes the
replay-start-time-not-available sub-condition, the loop overwrites the
replay-start directive of the configuration to from-beginning-of-log
before performing exactly one destroy followed by one recreate, the
recreate uses the overwritten configuration, and the overwritten
directive persists in the configuration through every subsequent
iteration of the loop. -/
theorem replayWindowExceeded_rebind_beginning (s : LoopState) (rc : Int)
    (hsub : s.flowErrorInfo.subCode
        = SOLCLIENT_SUBCODE_REPLAY_START_TIME_NOT_AVAILABLE) :
    (loopIter s rc).1.filter isOverwriteDestroyBind
      = [Action.overwriteReplayStart, Action.destroyFlow,
         Action.bindFlow { s.flowProps with replayStartLocation :=
            SOLCLIENT_FLOW_PROP_REPLAY_START_LOCATION_BEGINNING }]
    ∧ ((loopIter s rc).2.state).flowProps.replayStartLocation
        = SOLCLIENT_FLOW_PROP_REPLAY_START_LOCATION_BEGINNING
    ∧ (∀ (t : LoopState) (sched : List SchedEntry),
        t.flowProps.replayStartLocation
            = SOLCLIENT_FLOW_PROP_REPLAY_START_LOCATION_BEGINNING →
        ((runLoop t sched).state).flowProps.replayStartLocation
            = SOLCLIENT_FLOW_PROP_REPLAY_START_LOCATION_BEGINNING) := by
  refine ⟨?_, ?_, fun t sched ht => runLoop_preserves_beginning sched t ht⟩
  · by_cases hrc : rc = SOLCLIENT_OK
    · rw [loopIter_eq_window_ok s rc hsub hrc]
      rfl
    · rw [loopIter_eq_window_fail s rc hsub hrc]
      rfl
  · by_cases hrc : rc = SOLCLIENT_OK
    · rw [loopIter_eq_window_ok s rc hsub hrc]
      rfl
    · rw [loopIter_eq_window_fail s rc hsub hrc]
      rfl

/-- Concrete loop state observing a replay-start-time-not-available
sub-condition, with a timestamp-based replay start directive. -/
def windowExceededState : LoopState :=
  { msgCount := 0
  , flowErrorInfo :=
      { responseCode := 503
      , subCode := SOLCLIENT_SUBCODE_REPLAY_START_TIME_NOT_AVAILABLE
      , errorStr := "window" }
  , flowProps := { initFlowProps "q" with replayStartLocation := "DATE:1554331492" }
  , lastBindProps := { initFlowProps "q" with replayStartLocation := "DATE:1554331492" }
  , flowLive := true, binds := 1, destroys := 0 }

/-- Witness for claim C2 at a concrete state. -/
theorem replayWindowExceeded_rebind_beginning_witness :
    (loopIter windowExceededState 0).1.filter isOverwriteDestroyBind
      = [Action.overwriteReplayStart, Action.destroyFlow,
         Action.bindFlow { windowExceededState.flowProps with replayStartLocation :=
            SOLCLIENT_FLOW_PROP_REPLAY_START_LOCATION_BEGINNING }]
    ∧ ((loopIter windowExceededState 0).2.state).flowProps.replayStartLocation
        = SOLCLIENT_FLOW_PROP_REPLAY_START_LOCATION_BEGINNING
    ∧ (∀ (t : LoopState) (sched : List SchedEntry),
        t.flowProps.replayStartLocation
            = SOLCLIENT_FLOW_PROP_REPLAY_START_LOCATION_BEGINNING →
        ((runLoop t sched).state).flowProps.replayStartLocation
            = SOLCLIENT_FLOW_PROP_REPLAY_START_LOCATION_BEGINNING) :=
  replayWindowExceeded_rebind_beginning windowExceededState 0 rfl

/-- Concrete loop state holding a pending sub-condition that is neither
replay-started nor replay-start-time-not-available. -/
def otherSubCodeState : LoopState :=
  { msgCount := 0
  , flowErrorInfo := { responseCode := 503, subCode := 7, errorStr := "other" }
  , flowProps := initFlowProps "q"
  , lastBindProps := initFlowProps "q"
  , flowLive := true, binds := 1, destroys := 0 }

/-- Counterexample to claim C3 as stated: at a state whose Binding Error
State holds the nonzero sub-condition 7, an iteration performs no
clearing at all and leaves the record set unchanged, although a
sub-condition is set. -/
theorem clear_on_any_subcode_counterexample :
    otherSubCodeState.flowErrorInfo.subCode ≠ 0
    ∧ Action.clearError ∉ (loopIter otherSubCodeState 0).1
    ∧ ((loopIter otherSubCodeState 0).2.state).flowErrorInfo
        = otherSubCodeState.flowErrorInfo := by
  decide

/-- Claim C3 (amended): on every iteration that observes the
replay-started or the replay-start-time-not-available sub-condition, the
loop clears the Binding Error State, resetting response code,
sub-condition and message text to the no-error values, before any
destroy or bind call; for other set sub-conditions no clearing occurs. -/
theorem clear_before_act_replay_subcodes (s : LoopState) (rc : Int)
    (hsub : s.flowErrorInfo.subCode = SOLCLIENT_SUBCODE_REPLAY_STARTED
        ∨ s.flowErrorInfo.subCode = SOLCLIENT_SUBCODE_REPLAY_START_TIME_NOT_AVAILABLE) :
    (∃ p : FlowProps, (loopIter s rc).1.filter isErrorHandlingStep
        = [Action.clearError, Action.destroyFlow, Action.bindFlow p])
    ∧ ((loopIter s rc).2.state).flowErrorInfo = clearedErrorInfo := by
  rcases hsub with hsub | hsub <;> by_cases hrc : rc = SOLCLIENT_OK
  · rw [loopIter_eq_replayStarted_ok s rc hsub hrc]
    exact ⟨⟨s.flowProps, rfl⟩, rfl⟩
  · rw [loopIter_eq_replayStarted_fail s rc hsub hrc]
    exact ⟨⟨s.flowProps, rfl⟩, rfl⟩
  · rw [loopIter_eq_window_ok s rc hsub hrc]
    exact ⟨⟨{ s.flowProps with replayStartLocation :=
        SOLCLIENT_FLOW_PROP_REPLAY_START_LOCATION_BEGINNING }, rfl⟩, rfl⟩
  · rw [loopIter_eq_window_fail s rc hsub hrc]
    exact ⟨⟨{ s.flowProps with replayStartLocation :=
        SOLCLIENT_FLOW_PROP_REPLAY_START_LOCATION_BEGINNING }, rfl⟩, rfl⟩

/-- Concrete loop state with a pending replay-started sub-condition,
used to witness the amended claim C3. -/
def replayWindowWitnessState : LoopState :=
  { msgCount := 1
  , flowErrorInfo :=
      { responseCode := 200, subCode := SOLCLIENT_SUBCODE_REPLAY_STARTED
      , errorStr := "replay" }
  , flowProps := initFlowProps "q2"
  , lastBindProps := initFlowProps "q2"
  , flowLive := true, binds := 1, destroys := 0 }

/-- Witness for the amended claim C3 at a concrete state. -/
theorem clear_before_act_replay_subcodes_witness :
    (∃ p : FlowProps, (loopIter replayWindowWitnessState 0).1.filter isErrorHandlingStep
        = [Action.clearError, Action.destroyFlow, Action.bindFlow p])
    ∧ ((loopIter replayWindowWitnessState 0).2.state).flowErrorInfo = clearedErrorInfo :=
  clear_before_act_replay_subcodes replayWindowWitnessState 0 (Or.inl rfl)

/-- Claim C4 (amended): the flow event handler does not dispatch on the
event kind at all; on every event, whatever its kind, it overwrites the
response code and sub-condition of the Binding Error State with the
transport last-error values, leaves the message text of the record
unchanged, and produces the same result for any two event kinds. -/
theorem flowEventCallback_unconditional_overwrite
    (ev ev2 : FlowEvent) (st : FlowCallbackState) :
    (flowEventCallback ev st).flowErrorInfo.responseCode = st.lastErrorInfo.responseCode
    ∧ (flowEventCallback ev st).flowErrorInfo.subCode = st.lastErrorInfo.subCode
    ∧ (flowEventCallback ev st).flowErrorInfo.errorStr = st.flowErrorInfo.errorStr
    ∧ flowEventCallback ev st = flowEventCallback ev2 st :=
  ⟨rfl, rfl, rfl, rfl⟩

/-- Callback state in which the transport last-error record differs
from the shared Binding Error State. -/
def staleErrorCallbackState : FlowCallbackState :=
  { flowErrorInfo := clearedErrorInfo
  , lastErrorInfo := { responseCode := 503, subCode := 9, errorStr := "queue down" } }

/-- Counterexample to claim C4 as stated: a flow-up notice, which is not
a down-with-error event, still changes the Binding Error State whenever
the transport last-error values differ from the stored ones. -/
theorem flowEventCallback_frame_counterexample :
    (flowEventCallback FlowEvent.upNotice staleErrorCallbackState).flowErrorInfo
      ≠ staleErrorCallbackState.flowErrorInfo := by
  decide

/-- Callback state at a down-with-error delivery whose transport
last-error record carries a nonempty reason text. -/
def replayDownErrorCallbackState : FlowCallbackState :=
  { flowErrorInfo := clearedErrorInfo
  , lastErrorInfo :=
      { responseCode := 503, subCode := SOLCLIENT_SUBCODE_REPLAY_STARTED
      , errorStr := "Replay Started" } }

/-- Claim C5, evaluation at the failing input: for a down-with-error
event whose transport reason text is nonempty, the callback leaves the
message text of the shared Binding Error State empty instead of storing
the reason text, and additionally overwrites the reason text of the
transport last-error record (the reversed strncpy on line 74): the
response code and sub-condition are stored, the reason text is not, and
the writes to the shared record are not the only side effect. -/
theorem flowEventCallback_reason_text_not_saved :
    replayDownErrorCallbackState.lastErrorInfo.errorStr = "Replay Started"
    ∧ (flowEventCallback FlowEvent.downError replayDownErrorCallbackState).flowErrorInfo.responseCode = 503
    ∧ (flowEventCallback FlowEvent.downError replayDownErrorCallbackState).flowErrorInfo.subCode
        = SOLCLIENT_SUBCODE_REPLAY_STARTED
    ∧ (flowEventCallback FlowEvent.downError replayDownErrorCallbackState).flowErrorInfo.errorStr = ""
    ∧ (flowEventCallback FlowEvent.downError replayDownErrorCallbackState).lastErrorInfo.errorStr = "" :=
  ⟨rfl, rfl, rfl, rfl, rfl⟩

/-- Claim C6: every delivered message increments the message count by
exactly one, and the acknowledgments issued during the call are exactly
the extracted message identifier when extraction succeeds and none when
it fails; in particular a message whose identifier extraction fails is
still counted and not acknowledged. -/
theorem message_counted_and_ack_iff_msgId (msg : Msg) (c : Nat) :
    (flowMessageReceiveCallback msg c).1 = c + 1
    ∧ (flowMessageReceiveCallback msg c).2 = msg.msgIdResult.toList := by
  cases h : msg.msgIdResult <;> simp [flowMessageReceiveCallback, h]

/-- Claim C7: from any loop state with a live flow and one more
successful bind than destroys (the shape established by the successful
initial bind), every terminating execution of the consumption loop,
normal completion and fatal rebind error alike, ends with no live flow,
with every successful bind matched by a destroy, and with at least one
destroy performed. -/
theorem exit_leaves_no_live_flow (s : LoopState) (sched : List SchedEntry)
    (e : Int) (t : LoopState)
    (hlive : s.flowLive = true) (hb : s.binds = s.destroys + 1)
    (hfin : finishMain (runLoop s sched) = some (e, t)) :
    t.flowLive = false ∧ t.destroys = t.binds ∧ 1 ≤ t.destroys := by
  cases hr : runLoop s sched with
  | normalExit u =>
    have hu := (runLoop_inv sched s hlive hb).1 u hr
    rw [hr] at hfin
    unfold finishMain at hfin
    cases hfin
    exact ⟨rfl, by show u.destroys + 1 = u.binds; rw [hu.2],
      Nat.succ_le_succ (Nat.zero_le _)⟩
  | fatalExit u =>
    have hu := (runLoop_inv sched s hlive hb).2 u hr
    rw [hr] at hfin
    unfold finishMain at hfin
    cases hfin
    exact ⟨hu.1, hu.2.1.symm, hu.2.2⟩
  | running u =>
    rw [hr] at hfin
    simp [finishMain] at hfin

/-- Concrete loop state whose message count has already reached the
threshold. -/
def thresholdReachedState : LoopState :=
  { msgCount := 10
  , flowErrorInfo := clearedErrorInfo
  , flowProps := initFlowProps "q"
  , lastBindProps := initFlowProps "q"
  , flowLive := true, binds := 1, destroys := 0 }

/-- Witness for claim C7 on a run that exits normally at once. -/
theorem exit_leaves_no_live_flow_witness :
    (mainCleanup thresholdReachedState).flowLive = false
    ∧ (mainCleanup thresholdReachedState).destroys = (mainCleanup thresholdReachedState).binds
    ∧ 1 ≤ (mainCleanup thresholdReachedState).destroys :=
  exit_leaves_no_live_flow thresholdReachedState [] 0 (mainCleanup thresholdReachedState)
    rfl rfl rfl

/-- Claim C8: main exits with code -1 when fewer than five positional
arguments are supplied (argc below 6), when the session lacks the
endpoint-management capability, or when the initial bind or any rebind
returns a non-success result; it exits with code 0 on normal loop
completion, which can only happen once the message count has reached the
threshold of 10. -/
theorem mainRun_exit_codes (argv : List String) (capable : Bool) (rc0 : Int)
    (sched : List SchedEntry) :
    ((argv.length < 6 ∨ capable = false ∨ rc0 ≠ SOLCLIENT_OK) →
        mainRun argv capable rc0 sched = some (-1))
    ∧ (∀ t : LoopState, capable = true → rc0 = SOLCLIENT_OK → ¬ argv.length < 6 →
        runLoop (initLoopState (initFlowProps (argv.getD 5 ""))) sched
            = RunResult.fatalExit t →
        mainRun argv capable rc0 sched = some (-1))
    ∧ (∀ t : LoopState, capable = true → rc0 = SOLCLIENT_OK → ¬ argv.length < 6 →
        runLoop (initLoopState (initFlowProps (argv.getD 5 ""))) sched
            = RunResult.normalExit t →
        mainRun argv capable rc0 sched = some 0 ∧ 10 ≤ t.msgCount) := by
  refine ⟨?_, ?_, ?_⟩
  · intro h
    unfold mainRun
    by_cases hl : argv.length < 6
    · rw [if_pos hl]
    · rw [if_neg hl]
      rcases h with h | h | h
      · exact absurd h hl
      · rw [if_pos h]
      · by_cases hcap : capable = false
        · rw [if_pos hcap]
        · rw [if_neg hcap, if_neg h]
  · intro t hcap hrc hl hrun
    unfold mainRun
    rw [if_neg hl, if_neg (by simp [hcap]), if_pos hrc, hrun]
    rfl
  · intro t hcap hrc hl hrun
    unfold mainRun
    rw [if_neg hl, if_neg (by simp [hcap]), if_pos hrc, hrun]
    exact ⟨rfl, runLoop_normalExit_msgCount sched _ t hrun⟩

/-- Witness for claim C8: a five-element argument vector (four
positional arguments) makes main exit with code -1. -/
theorem mainRun_exit_codes_witness :
    mainRun ["prog", "host", "vpn", "user", "pass"] true 0 [] = some (-1) :=
  (mainRun_exit_codes ["prog", "host", "vpn", "user", "pass"] true 0 []).1
    (Or.inl (by decide))

/-- Claim C10: an iteration that observes a pending sub-condition other
than replay-started and replay-start-time-not-available performs no
destroy, no bind and no clearing: it only sleeps and leaves the state,
including the set Binding Error State record, exactly unchanged. -/
theorem unrecognized_subcode_idles (s : LoopState) (rc : Int)
    (h0 : s.flowErrorInfo.subCode ≠ 0)
    (h1 : s.flowErrorInfo.subCode ≠ SOLCLIENT_SUBCODE_REPLAY_STARTED)
    (h2 : s.flowErrorInfo.subCode ≠ SOLCLIENT_SUBCODE_REPLAY_START_TIME_NOT_AVAILABLE) :
    loopIter s rc = ([Action.sleepPoll], IterResult.next s) :=
  loopIter_eq_other s rc h0 h1 h2

/-- Concrete loop state with the unrecognized sub-condition 9. -/
def unrecognizedSubCodeState : LoopState :=
  { msgCount := 2
  , flowErrorInfo := { responseCode := 400, subCode := 9, errorStr := "misc" }
  , flowProps := initFlowProps "q"
  , lastBindProps := initFlowProps "q"
  , flowLive := true, binds := 1, destroys := 0 }

/-- Witness for claim C10 at a concrete state. -/
theorem unrecognized_subcode_idles_witness :
    loopIter unrecognizedSubCodeState 0
      = ([Action.sleepPoll], IterResult.next unrecognizedSubCodeState) :=
  unrecognized_subcode_idles unrecognizedSubCodeState 0 (by decide) (by decide) (by decide)

end MessageReplay
